import Mathlib

/-!
# ESP32 TensorFlow Lite sample sketch: `setup()` and `loop()` of `src/main.cpp`

The sketch is glue around three collaborators that are not part of the
repository: the Arduino `Serial` object, the TensorFlow Lite Micro interpreter
and the model blob `g_sine_model_data`.  They are parameters of the embedding
(`SerialPort`, `Engine`, `Blob`).  The sketch's own state (the four global
pointers, the function-local static interpreter) is explicit, `setup` and
`loop` are state transformers that also return the ordered list of calls they
made on the collaborators.

`float` is embedded bit-exactly as IEEE-754 binary32 (sign, exponent field,
fraction field); the only float operations of the sketch are the two
comparisons of `loop`.
-/

namespace Sketch

/-! ## IEEE-754 binary32 values and their comparison -/

/-- A C++ `float` on the ESP32: the three fields of an IEEE-754 binary32. -/
structure F32 where
  sign : Bool
  expo : Fin 256
  mant : Fin 8388608
  deriving DecidableEq, Repr

namespace F32

/-- Not-a-number: exponent field all ones, fraction non-zero. -/
def isNaN (x : F32) : Bool := x.expo.val == 255 && x.mant.val != 0

/-- Infinity: exponent field all ones, fraction zero. -/
def isInf (x : F32) : Bool := x.expo.val == 255 && x.mant.val == 0

/-- Finite: exponent field below 255. -/
def isFinite (x : F32) : Bool := decide (x.expo.val < 255)

/-- Magnitude in units of `2^-149` (the smallest subnormal).  Subnormals are
`mant`, normals are `(2^23 + mant) * 2^(expo-1)`.  The same formula applied to
exponent field 255 puts the infinities strictly beyond every finite value, so
the order of `scaled` is the IEEE order on all non-NaN values. -/
def mag (x : F32) : Nat :=
  if x.expo.val = 0 then x.mant.val else (8388608 + x.mant.val) * 2 ^ (x.expo.val - 1)

/-- Signed value in units of `2^-149`. -/
def scaled (x : F32) : Int := if x.sign then -(x.mag : Int) else (x.mag : Int)

/-- C++ `a < b` on `float`: false when either operand is a NaN, otherwise the
numeric order (`-0.0` and `+0.0` compare equal). -/
def lt (a b : F32) : Bool := !a.isNaN && !b.isNaN && decide (a.scaled < b.scaled)

/-- C++ `a > b` on `float`. -/
def gt (a b : F32) : Bool := lt b a

/-- The real number a finite `float` denotes.  (On an infinity the formula
gives `±2^128`, beyond every finite `float`.) -/
noncomputable def toReal (x : F32) : ℝ := (x.scaled : ℝ) / 2 ^ 149

end F32

/-- The literal `0.0f`. -/
def zero_f : F32 := ⟨false, 0, 0⟩

/-- The double `M_PI` of `math.h`, `0x400921FB54442D18`, in units of `2^-51`. -/
def M_PI_units : Nat := 0x1921FB54442D18

/-- The constant `(float)(2*M_PI)` of `loop`: doubling `M_PI` is exact, the
cast rounds to the nearest binary32, `0x40C90FDB`
(`13176795 * 2^-21 = 6.2831854820251465`). -/
def TWO_PI_F : F32 := ⟨false, 129, 4788187⟩

/-- The range test of `loop`:
`user_input < 0.0f || user_input > (float)(2*M_PI)`. -/
def outOfRange (user_input : F32) : Bool :=
  F32.lt user_input zero_f || F32.gt user_input TWO_PI_F

/-- Some concrete `float`s used as test inputs. -/
def one_f : F32 := ⟨false, 127, 0⟩
/-- The literal `-1.0f`. -/
def neg_one_f : F32 := ⟨true, 127, 0⟩
/-- The literal `7.0f`. -/
def seven_f : F32 := ⟨false, 129, 6291456⟩
/-- A quiet NaN, `0x7FC00000`. -/
def nan_f : F32 := ⟨false, 255, 4194304⟩
/-- Plus infinity, `0x7F800000`. -/
def inf_f : F32 := ⟨false, 255, 0⟩


/-! ## The collaborators -/

/-- The status code of TensorFlow Lite (`kTfLiteOk`, `kTfLiteError`). -/
inductive TfLiteStatus
  | kTfLiteOk
  | kTfLiteError
  deriving DecidableEq, Repr

/-- A non-null `const tflite::Model*`; the null pointer is `none`. -/
abbrev ModelPtr := Nat

/-- A non-null `TfLiteTensor*`; the null pointer is `none`. -/
abbrev TensorPtr := Nat

/-- A non-null `tflite::MicroInterpreter*`.  The sketch has one interpreter
object, the function-local `static_interpreter` of `setup`. -/
inductive InterpPtr
  | static_interpreter
  deriving DecidableEq, Repr

/-- The bytes of `g_sine_model_data` (declared in `sine_model_data.h`). -/
abbrev Blob := List Nat

/-- The constant `tensor_pool_size`. -/
def tensor_pool_size : Nat := 2 * 1024

/-- The TensorFlow Lite Micro library, as far as the sketch calls it.  `I` is
the memory the library works on: `tensor_pool` and the interpreter object. -/
structure Engine (I : Type) where
  /-- Call `tflite::GetModel(blob)`. -/
  getModel : Blob → Option ModelPtr
  /-- The constructor `MicroInterpreter(model, resolver, pool, size, reporter)`. -/
  construct : I → Option ModelPtr → Nat → I
  /-- Call `interpreter->AllocateTensors()`. -/
  allocateTensors : I → TfLiteStatus × I
  /-- Call `interpreter->Invoke()`. -/
  invoke : I → TfLiteStatus × I
  /-- Call `interpreter->input(i)`. -/
  input : I → Nat → Option TensorPtr
  /-- Call `interpreter->output(i)`. -/
  output : I → Nat → Option TensorPtr
  /-- The assignment `t->data.f[0] = x` through a non-null tensor pointer. -/
  store : I → TensorPtr → F32 → I
  /-- The read `t->data.f[0]` through a non-null tensor pointer. -/
  load : I → TensorPtr → F32

/-- The Arduino `Serial` input side.  `S` is the state of the receive buffer.
`parseFloat` returns a `float` and the buffer it leaves; it has no way to
report that it found no number. -/
structure SerialPort (S : Type) where
  /-- Call `Serial.available()`. -/
  available : S → Int
  /-- Call `Serial.parseFloat()`. -/
  parseFloat : S → F32 × S

/-- One call made on a collaborator, in program order. -/
inductive Event
  /-- Call `Serial.begin(baud)`. -/
  | begin (baud : Nat)
  /-- Call `Serial.print(s)`. -/
  | print (s : String)
  /-- Call `Serial.println(s)`. -/
  | println (s : String)
  /-- Call `Serial.println(x)` on a `float`. -/
  | printlnFloat (x : F32)
  /-- Call `Serial.parseFloat()`, which returned `x`. -/
  | parseFloat (x : F32)
  /-- Call `tflite::GetModel(g_sine_model_data)`. -/
  | getModel
  /-- The one-time construction of `static_interpreter`. -/
  | construct
  /-- Call `interpreter->AllocateTensors()`, which returned `st`. -/
  | allocateTensors (st : TfLiteStatus)
  /-- Assignment `input->data.f[0] = x` with `input == p`. -/
  | store (p : TensorPtr) (x : F32)
  /-- Call `interpreter->Invoke()`, which returned `st`. -/
  | invoke (st : TfLiteStatus)
  /-- Read of `output->data.f[0]` with `output == p`, giving `y`. -/
  | load (p : TensorPtr) (y : F32)
  deriving DecidableEq, Repr

/-- A null pointer dereference (undefined behaviour in C++; execution is not
followed past it). -/
inductive Fault
  /-- Assignment `input->data.f[0] = x` with `input == nullptr`. -/
  | nullInput (x : F32)
  /-- Call `interpreter->Invoke()` with `interpreter == nullptr`. -/
  | nullInterpreter
  /-- Read of `output->data.f[0]` with `output == nullptr`. -/
  | nullOutput
  deriving DecidableEq, Repr

/-! ## The sketch's state -/

/-- The globals of `main.cpp`, the static local of `setup`, the library's
memory and the serial receive buffer. -/
structure World (I S : Type) where
  /-- Global `const tflite::Model* sine_model`. -/
  sine_model : Option ModelPtr
  /-- Global `tflite::MicroInterpreter* interpreter`. -/
  interpreter : Option InterpPtr
  /-- Global `TfLiteTensor* input`. -/
  input : Option TensorPtr
  /-- Global `TfLiteTensor* output`. -/
  output : Option TensorPtr
  /-- Whether the static local `static_interpreter` has been constructed. -/
  static_built : Bool
  /-- Contents of `tensor_pool` and of the interpreter object. -/
  mem : I
  /-- The serial receive buffer. -/
  serial : S

/-- The result of running `setup` or `loop` once: the calls made, the state
reached, and the fault if a null pointer was dereferenced (then `events` and
`world` are those reached just before it). -/
structure Step (I S : Type) where
  events : List Event
  world : World I S
  fault : Option Fault

/-- Program start: globals are zero-initialised, the static local is not yet
constructed. -/
def World.boot {I S : Type} (mem : I) (serial : S) : World I S :=
  { sine_model := none, interpreter := none, input := none, output := none,
    static_built := false, mem := mem, serial := serial }

/-- The four globals that make up the session. -/
def World.session {I S : Type} (w : World I S) :
    Option ModelPtr × Option InterpPtr × Option TensorPtr × Option TensorPtr :=
  (w.sine_model, w.interpreter, w.input, w.output)

/-- The session is Ready: the interpreter pointer and both slot references are
non-null (the three pointers `loop` dereferences). -/
def World.Ready {I S : Type} (w : World I S) : Prop :=
  w.interpreter.isSome = true ∧ w.input.isSome = true ∧ w.output.isSome = true

/-! ## `setup()` and `loop()` -/

/-- The declaration of the static local `static_interpreter` in `setup`
(lines 59-61): the constructor runs on the first call only, with the model
pointer just obtained and `tensor_pool_size`. -/
def staticInit {I S : Type} (E : Engine I) (g_sine_model_data : Blob) (w : World I S) : I :=
  if w.static_built then w.mem
  else E.construct w.mem (E.getModel g_sine_model_data) tensor_pool_size

/-- The function `setup()` (lines 42-76).  The resolver and the error reporter
are static locals that are only handed to the interpreter's constructor.  The
interpreter itself is a static local: C++ constructs it the first time control
passes its declaration and never again. -/
def setup {I S : Type} (E : Engine I) (g_sine_model_data : Blob) (w : World I S) : Step I S :=
  let sine_model := E.getModel g_sine_model_data
  let built := w.static_built
  let mem1 := staticInit E g_sine_model_data w
  let ev1 := [Event.begin 115200, Event.println "Loading Tensorflow model....",
    Event.getModel, Event.println "Sine model loaded!"]
    ++ (if built then [] else [Event.construct])
    ++ [Event.println "Allocating tensors to memory pool"]
  let r := E.allocateTensors mem1
  let w1 : World I S := { w with
    sine_model := sine_model, interpreter := some InterpPtr.static_interpreter,
    static_built := true, mem := r.2 }
  if r.1 ≠ TfLiteStatus.kTfLiteOk then
    { events := ev1 ++ [Event.allocateTensors r.1,
        Event.println "There was an error allocating the memory...ooof"],
      world := w1, fault := none }
  else
    { events := ev1 ++ [Event.allocateTensors r.1,
        Event.println "Starting inferences... Input a number! "],
      world := { w1 with input := E.input r.2 0, output := E.output r.2 0 },
      fault := none }

/-- The function `loop()` (lines 79-111), one call. -/
def loop {I S : Type} (E : Engine I) (P : SerialPort S) (w : World I S) : Step I S :=
  if P.available w.serial > 0 then
    let r := P.parseFloat w.serial
    let user_input := r.1
    let w1 : World I S := { w with serial := r.2 }
    let ev1 := [Event.parseFloat user_input]
    if F32.lt user_input zero_f || F32.gt user_input TWO_PI_F then
      { events := ev1 ++
          [Event.println "Your number must be greater than 0 and less than 2*PI"],
        world := w1, fault := none }
    else
      match w1.input with
      | none => { events := ev1, world := w1, fault := some (Fault.nullInput user_input) }
      | some pin =>
        let w2 : World I S := { w1 with mem := E.store w1.mem pin user_input }
        let ev2 := ev1 ++ [Event.store pin user_input,
          Event.println "Running inference on inputted data..."]
        match w2.interpreter with
        | none => { events := ev2, world := w2, fault := some Fault.nullInterpreter }
        | some _ =>
          let inv := E.invoke w2.mem
          let w3 : World I S := { w2 with mem := inv.2 }
          if inv.1 ≠ TfLiteStatus.kTfLiteOk then
            { events := ev2 ++ [Event.invoke inv.1,
                Event.println "There was an error invoking the interpreter!"],
              world := w3, fault := none }
          else
            let ev3 := ev2 ++ [Event.invoke inv.1, Event.print "Input: ",
              Event.printlnFloat user_input, Event.print "Output: "]
            match w3.output with
            | none => { events := ev3, world := w3, fault := some Fault.nullOutput }
            | some pout =>
              let y := E.load w3.mem pout
              { events := ev3 ++ [Event.load pout y, Event.printlnFloat y, Event.println ""],
                world := w3, fault := none }
  else
    { events := [], world := w, fault := none }

/-! ## Reading the serial output off a list of calls -/

/-- A piece of an output line: literal text, or a printed `float` (its decimal
rendering is the serial library's business). -/
inductive Piece
  | text (s : String)
  | num (x : F32)
  deriving DecidableEq, Repr

/-- The completed output lines of a list of calls, `cur` being the line under
construction. -/
def linesFrom : List Piece → List Event → List (List Piece)
  | _, [] => []
  | cur, Event.print s :: es => linesFrom (cur ++ [Piece.text s]) es
  | cur, Event.println s :: es => (cur ++ [Piece.text s]) :: linesFrom [] es
  | cur, Event.printlnFloat x :: es => (cur ++ [Piece.num x]) :: linesFrom [] es
  | cur, _ :: es => linesFrom cur es

/-- The completed output lines of a list of calls. -/
def printedLines (es : List Event) : List (List Piece) := linesFrom [] es

/-- A line of the form `Input: ...` or `Output: ...`. -/
def isResultLine (l : List Piece) : Bool :=
  l.head? == some (Piece.text "Input: ") || l.head? == some (Piece.text "Output: ")

/-- The call list writes the input slot. -/
def writesInput (es : List Event) : Bool :=
  es.any fun e => match e with
    | Event.store _ _ => true
    | _ => false

/-- The number of forward passes in the call list. -/
def invokeCount (es : List Event) : Nat :=
  es.countP fun e => match e with
    | Event.invoke _ => true
    | _ => false

/-! ## Test doubles for the collaborators -/

/-- Memory of the test engine: the two scalar slots. -/
structure ToyMem where
  inp : F32
  outp : F32
  deriving DecidableEq, Repr

/-- A test engine: allocation and invocation succeed or fail as told, the
network is the identity, the input tensor is at 10 and the output tensor at
20. -/
def toyEngine (allocOk invokeOk : Bool) : Engine ToyMem where
  getModel := fun _ => some 1
  construct := fun m _ _ => m
  allocateTensors := fun m =>
    (if allocOk then TfLiteStatus.kTfLiteOk else TfLiteStatus.kTfLiteError, m)
  invoke := fun m =>
    if invokeOk then (TfLiteStatus.kTfLiteOk, { m with outp := m.inp })
    else (TfLiteStatus.kTfLiteError, m)
  input := fun _ i => if i = 0 then some 10 else none
  output := fun _ i => if i = 0 then some 20 else none
  store := fun m p x => if p = 10 then { m with inp := x } else m
  load := fun m _ => m.outp

/-- A test serial port.  The receive buffer is a list of tokens; a token
either spells a number or does not (`none`).  For a token without a number
`parseFloat` returns `0.0`, as `Stream::parseFloat` of the Arduino core does
when it times out without having seen a digit. -/
def toyPort : SerialPort (List (Option F32)) where
  available := fun s => (s.length : Int)
  parseFloat := fun s => ((s.head?.join).getD zero_f, s.tail)

/-- The state of the test rig at program start. -/
def toyBoot (rx : List (Option F32)) : World ToyMem (List (Option F32)) :=
  World.boot ⟨zero_f, zero_f⟩ rx

/-- The state of the test rig after `setup` ran from program start. -/
def toyAfterSetup (allocOk invokeOk : Bool) (rx : List (Option F32)) :
    World ToyMem (List (Option F32)) :=
  (setup (toyEngine allocOk invokeOk) [] (toyBoot rx)).world

theorem zero_f_scaled : zero_f.scaled = 0 := by
  simp [zero_f, F32.scaled, F32.mag]

theorem TWO_PI_F_mag : TWO_PI_F.mag = 13176795 * 2 ^ 128 := by decide

theorem TWO_PI_F_scaled : TWO_PI_F.scaled = ((13176795 * 2 ^ 128 : Nat) : Int) := by
  have h : TWO_PI_F.scaled = (TWO_PI_F.mag : Int) := rfl
  rw [h, TWO_PI_F_mag]

theorem zero_f_isNaN : zero_f.isNaN = false := by decide

theorem TWO_PI_F_isNaN : TWO_PI_F.isNaN = false := by decide

/-- The constant of `loop` is the binary32 nearest to the double `2*M_PI`
(both in units of `2^-50`: the distance is below half a binary32 ulp, `2^28`). -/
theorem TWO_PI_F_nearest :
    13176795 * 2 ^ 29 - M_PI_units < 2 ^ 28 ∧ M_PI_units < 13176795 * 2 ^ 29 := by
  decide

theorem lt_zero_iff (x : F32) :
    F32.lt x zero_f = true ↔ x.isNaN = false ∧ x.scaled < 0 := by
  simp [F32.lt, zero_f_isNaN, zero_f_scaled]

theorem gt_two_pi_iff (x : F32) :
    F32.gt x TWO_PI_F = true ↔ x.isNaN = false ∧ TWO_PI_F.scaled < x.scaled := by
  simp [F32.gt, F32.lt, TWO_PI_F_isNaN]

theorem outOfRange_iff (x : F32) :
    outOfRange x = true ↔
      x.isNaN = false ∧ (x.scaled < 0 ∨ TWO_PI_F.scaled < x.scaled) := by
  simp only [outOfRange, Bool.or_eq_true, lt_zero_iff, gt_two_pi_iff]
  tauto

theorem toReal_neg_iff (x : F32) : x.toReal < 0 ↔ x.scaled < 0 := by
  unfold F32.toReal
  rw [div_neg_iff]
  constructor
  · rintro (⟨_, h⟩ | ⟨h, _⟩)
    · exact absurd h (not_lt.mpr (by positivity))
    · exact_mod_cast h
  · intro h
    exact Or.inr ⟨by exact_mod_cast h, by positivity⟩

theorem toReal_lt_toReal_iff (x y : F32) : x.toReal < y.toReal ↔ x.scaled < y.scaled := by
  unfold F32.toReal
  rw [div_lt_div_iff_of_pos_right (by positivity)]
  exact Int.cast_lt

theorem TWO_PI_F_toReal : TWO_PI_F.toReal = 13176795 / 2 ^ 21 := by
  unfold F32.toReal
  rw [TWO_PI_F_scaled]
  push_cast
  rw [div_eq_div_iff (by positivity) (by positivity)]
  ring

/-- The constant of `loop` lies strictly above the real number `2π`. -/
theorem two_pi_lt_TWO_PI_F : 2 * Real.pi < TWO_PI_F.toReal := by
  rw [TWO_PI_F_toReal]
  have h := Real.pi_lt_d20
  rw [lt_div_iff₀ (by positivity)]
  norm_num at h ⊢
  linarith

theorem mag_lt_of_expo_le (x : F32) (h : x.expo.val ≤ 128) : x.mag < 2 ^ 151 := by
  unfold F32.mag
  have hm : x.mant.val < 8388608 := x.mant.isLt
  split
  · calc x.mant.val < 8388608 := hm
      _ ≤ 2 ^ 151 := by norm_num
  · have hp : 2 ^ (x.expo.val - 1) ≤ 2 ^ 127 :=
      Nat.pow_le_pow_right (by norm_num) (by omega)
    calc (8388608 + x.mant.val) * 2 ^ (x.expo.val - 1)
        ≤ (8388608 + x.mant.val) * 2 ^ 127 := Nat.mul_le_mul_left _ hp
      _ < 16777216 * 2 ^ 127 := Nat.mul_lt_mul_of_pos_right (by omega) (by positivity)
      _ = 2 ^ 151 := by norm_num

theorem mag_ge_of_expo_ge (x : F32) (h : 130 ≤ x.expo.val) : 2 ^ 152 ≤ x.mag := by
  unfold F32.mag
  have h0 : ¬ x.expo.val = 0 := by omega
  rw [if_neg h0]
  have hp : 2 ^ 129 ≤ 2 ^ (x.expo.val - 1) :=
    Nat.pow_le_pow_right (by norm_num) (by omega)
  calc 2 ^ 152 = 8388608 * 2 ^ 129 := by norm_num
    _ ≤ (8388608 + x.mant.val) * 2 ^ 129 := Nat.mul_le_mul_right _ (by omega)
    _ ≤ (8388608 + x.mant.val) * 2 ^ (x.expo.val - 1) := Nat.mul_le_mul_left _ hp

theorem mag_of_expo_129 (x : F32) (h : x.expo.val = 129) :
    x.mag = (8388608 + x.mant.val) * 2 ^ 128 := by
  unfold F32.mag
  rw [h]
  rfl

theorem scaled_eq_mag_of_pos (x : F32) (h : 0 < x.scaled) :
    x.sign = false ∧ x.scaled = (x.mag : Int) := by
  unfold F32.scaled at h ⊢
  cases hs : x.sign
  · simp
  · rw [hs] at h
    simp at h
    omega

/-- A value that passes the range test and is not a NaN is finite and lies
between `0` and the constant of `loop`. -/
theorem accepted_bounds (x : F32) (hr : outOfRange x = false) (hn : x.isNaN = false) :
    x.isFinite = true ∧ 0 ≤ x.toReal ∧ x.toReal ≤ TWO_PI_F.toReal := by
  have h := (outOfRange_iff x).not.mp (by simp [hr])
  have h0 : ¬ x.scaled < 0 := fun hx => h ⟨hn, Or.inl hx⟩
  have h1 : ¬ TWO_PI_F.scaled < x.scaled := fun hx => h ⟨hn, Or.inr hx⟩
  refine ⟨?_, ?_, ?_⟩
  · by_contra hf
    have he : 130 ≤ x.expo.val := by
      have : ¬ x.expo.val < 255 := by simpa [F32.isFinite] using hf
      omega
    have hmag := mag_ge_of_expo_ge x he
    have hpos : (0 : Int) < x.mag := by
      have : 0 < x.mag := lt_of_lt_of_le (by positivity) hmag
      exact_mod_cast this
    have hsc : x.scaled = (x.mag : Int) := by
      unfold F32.scaled at h0 ⊢
      split
      · rename_i hs
        rw [if_pos hs] at h0
        omega
      · rfl
    apply h1
    rw [TWO_PI_F_scaled, hsc]
    have : 13176795 * 2 ^ 128 < x.mag :=
      lt_of_lt_of_le (by norm_num) hmag
    exact_mod_cast this
  · have := (toReal_neg_iff x).not.mpr h0
    exact not_lt.mp this
  · have := (toReal_lt_toReal_iff TWO_PI_F x).not.mpr h1
    exact not_lt.mp this

/-- Every `float` whose value lies in the real interval `[0, 2π]` passes the
range test. -/
theorem inRange_accepted (x : F32) (h0 : 0 ≤ x.toReal) (h1 : x.toReal ≤ 2 * Real.pi) :
    outOfRange x = false := by
  have hnot : ¬ outOfRange x = true := by
    rw [outOfRange_iff]
    rintro ⟨_, h | h⟩
    · exact absurd ((toReal_neg_iff x).mpr h) (not_lt.mpr h0)
    · have := (toReal_lt_toReal_iff TWO_PI_F x).mpr h
      linarith [two_pi_lt_TWO_PI_F]
  simpa using hnot

/-- A non-NaN `float` below `0` or above the constant of `loop` fails the
range test. -/
theorem outside_rejected (x : F32) (hn : x.isNaN = false)
    (h : x.toReal < 0 ∨ TWO_PI_F.toReal < x.toReal) : outOfRange x = true := by
  rw [outOfRange_iff]
  refine ⟨hn, ?_⟩
  rcases h with h | h
  · exact Or.inl ((toReal_neg_iff x).mp h)
  · exact Or.inr ((toReal_lt_toReal_iff TWO_PI_F x).mp h)

/-- The binary32 just below the constant of `loop` is below `2π`: the constant
is the only `float` in the gap between `2π` and itself. -/
theorem above_two_pi_gap (x : F32) (h : 2 * Real.pi < x.toReal) (hne : x ≠ TWO_PI_F) :
    TWO_PI_F.scaled < x.scaled := by
  have hpi := Real.pi_gt_d20
  -- the value exceeds `13176794 * 2^-21`
  have hlow : ((13176794 * 2 ^ 128 : Nat) : Int) < x.scaled := by
    have h2 : (13176794 : ℝ) / 2 ^ 21 < x.toReal := by
      refine lt_trans ?_ h
      rw [div_lt_iff₀ (by positivity)]
      norm_num at hpi ⊢
      linarith
    unfold F32.toReal at h2
    rw [div_lt_div_iff₀ (by positivity) (by positivity)] at h2
    have h3 : ((13176794 * 2 ^ 128 : Nat) : ℝ) < ((x.scaled : Int) : ℝ) := by
      have e : (2 : ℝ) ^ 149 = 2 ^ 128 * 2 ^ 21 := by norm_num
      rw [e] at h2
      push_cast
      nlinarith [h2, (by positivity : (0 : ℝ) < 2 ^ 21)]
    exact_mod_cast h3
  have hpos : 0 < x.scaled := lt_of_le_of_lt (by positivity) hlow
  obtain ⟨hs, hsc⟩ := scaled_eq_mag_of_pos x hpos
  rw [hsc] at hlow ⊢
  rw [TWO_PI_F_scaled]
  have hlow' : 13176794 * 2 ^ 128 < x.mag := by exact_mod_cast hlow
  suffices hm : 13176795 * 2 ^ 128 < x.mag by exact_mod_cast hm
  by_cases he1 : x.expo.val ≤ 128
  · have := mag_lt_of_expo_le x he1
    have : (2 : Nat) ^ 151 ≤ 13176794 * 2 ^ 128 := by norm_num
    omega
  by_cases he2 : 130 ≤ x.expo.val
  · exact lt_of_lt_of_le (by norm_num) (mag_ge_of_expo_ge x he2)
  have he : x.expo.val = 129 := by omega
  rw [mag_of_expo_129 x he] at hlow' ⊢
  have hm1 : 13176794 < 8388608 + x.mant.val := Nat.lt_of_mul_lt_mul_right hlow'
  have hm2 : 8388608 + x.mant.val ≠ 13176795 := by
    intro hm
    apply hne
    have hmant : x.mant.val = 4788187 := by omega
    cases x with
    | mk s e m =>
      simp only at hs he hmant
      subst hs
      have e1 : e = 129 := Fin.ext he
      have e2 : m = 4788187 := Fin.ext hmant
      subst e1 e2
      rfl
  exact Nat.mul_lt_mul_of_pos_right (by omega) (by positivity)

/-! ## The branches of `loop` -/

theorem loop_no_data {I S : Type} (E : Engine I) (P : SerialPort S) (w : World I S)
    (hav : ¬ 0 < P.available w.serial) :
    loop E P w = { events := [], world := w, fault := none } := by
  unfold loop
  simp [hav]

theorem loop_reject {I S : Type} (E : Engine I) (P : SerialPort S) (w : World I S)
    (hav : 0 < P.available w.serial) (hr : outOfRange (P.parseFloat w.serial).1 = true) :
    loop E P w =
      { events := [Event.parseFloat (P.parseFloat w.serial).1,
          Event.println "Your number must be greater than 0 and less than 2*PI"],
        world := { w with serial := (P.parseFloat w.serial).2 }, fault := none } := by
  unfold outOfRange at hr
  unfold loop
  simp [hav, hr]

theorem loop_null_input {I S : Type} (E : Engine I) (P : SerialPort S) (w : World I S)
    (hav : 0 < P.available w.serial) (hr : outOfRange (P.parseFloat w.serial).1 = false)
    (hin : w.input = none) :
    loop E P w =
      { events := [Event.parseFloat (P.parseFloat w.serial).1],
        world := { w with serial := (P.parseFloat w.serial).2 },
        fault := some (Fault.nullInput (P.parseFloat w.serial).1) } := by
  unfold outOfRange at hr
  unfold loop
  simp [hav, hr, hin]

theorem loop_invoke_error {I S : Type} (E : Engine I) (P : SerialPort S) (w : World I S)
    (pin : TensorPtr) (ip : InterpPtr)
    (hav : 0 < P.available w.serial) (hr : outOfRange (P.parseFloat w.serial).1 = false)
    (hin : w.input = some pin) (hip : w.interpreter = some ip)
    (hst : (E.invoke (E.store w.mem pin (P.parseFloat w.serial).1)).1
      ≠ TfLiteStatus.kTfLiteOk) :
    loop E P w =
      { events := [Event.parseFloat (P.parseFloat w.serial).1,
          Event.store pin (P.parseFloat w.serial).1,
          Event.println "Running inference on inputted data...",
          Event.invoke (E.invoke (E.store w.mem pin (P.parseFloat w.serial).1)).1,
          Event.println "There was an error invoking the interpreter!"],
        world := { w with
          serial := (P.parseFloat w.serial).2,
          mem := (E.invoke (E.store w.mem pin (P.parseFloat w.serial).1)).2 },
        fault := none } := by
  unfold outOfRange at hr
  unfold loop
  simp [hav, hr, hin, hip, hst]

theorem loop_invoke_ok {I S : Type} (E : Engine I) (P : SerialPort S) (w : World I S)
    (pin pout : TensorPtr) (ip : InterpPtr)
    (hav : 0 < P.available w.serial) (hr : outOfRange (P.parseFloat w.serial).1 = false)
    (hin : w.input = some pin) (hip : w.interpreter = some ip) (hout : w.output = some pout)
    (hst : (E.invoke (E.store w.mem pin (P.parseFloat w.serial).1)).1
      = TfLiteStatus.kTfLiteOk) :
    loop E P w =
      { events := [Event.parseFloat (P.parseFloat w.serial).1,
          Event.store pin (P.parseFloat w.serial).1,
          Event.println "Running inference on inputted data...",
          Event.invoke TfLiteStatus.kTfLiteOk,
          Event.print "Input: ",
          Event.printlnFloat (P.parseFloat w.serial).1,
          Event.print "Output: ",
          Event.load pout
            (E.load (E.invoke (E.store w.mem pin (P.parseFloat w.serial).1)).2 pout),
          Event.printlnFloat
            (E.load (E.invoke (E.store w.mem pin (P.parseFloat w.serial).1)).2 pout),
          Event.println ""],
        world := { w with
          serial := (P.parseFloat w.serial).2,
          mem := (E.invoke (E.store w.mem pin (P.parseFloat w.serial).1)).2 },
        fault := none } := by
  unfold outOfRange at hr
  unfold loop
  simp [hav, hr, hin, hip, hout, hst]

/-! ## Facts about the test doubles -/

theorem one_f_toReal : one_f.toReal = 1 := by
  have h : one_f.scaled = ((2 ^ 149 : Nat) : Int) := by
    have h1 : one_f.scaled = (one_f.mag : Int) := rfl
    have h2 : one_f.mag = 2 ^ 149 := by decide
    rw [h1, h2]
  unfold F32.toReal
  rw [h]
  norm_num

theorem one_f_in_range : 0 ≤ one_f.toReal ∧ one_f.toReal ≤ 2 * Real.pi := by
  rw [one_f_toReal]
  constructor
  · norm_num
  · linarith [Real.pi_gt_three]

theorem toyAfterSetup_ready (invokeOk : Bool) (rx : List (Option F32)) :
    (toyAfterSetup true invokeOk rx).Ready := by
  simp [toyAfterSetup, setup, toyEngine, toyBoot, World.boot, World.Ready]

/-! ## The driver loop -/

/-- C10: when no input data is available (`Serial.available() > 0` is false),
one call of `loop` makes no call on any collaborator (it prints nothing, parses
nothing, writes no slot, invokes nothing), raises no fault, and returns the
whole state unchanged. -/
theorem loop_no_data_is_noop {I S : Type} (E : Engine I) (P : SerialPort S) (w : World I S)
    (hav : P.available w.serial ≤ 0) :
    (loop E P w).events = [] ∧ (loop E P w).world = w ∧ (loop E P w).fault = none := by
  rw [loop_no_data E P w (not_lt.mpr hav)]
  exact ⟨rfl, rfl, rfl⟩

/-- C10 at the test rig with an empty receive buffer. -/
theorem loop_no_data_is_noop_witness :
    (loop (toyEngine true true) toyPort (toyAfterSetup true true [])).events = [] ∧
    (loop (toyEngine true true) toyPort (toyAfterSetup true true [])).world
      = toyAfterSetup true true [] ∧
    (loop (toyEngine true true) toyPort (toyAfterSetup true true [])).fault = none :=
  loop_no_data_is_noop (toyEngine true true) toyPort (toyAfterSetup true true [])
    (by decide)

/-- C5: Ready is an invariant of `loop`.  From a Ready session, one call of
`loop` (whatever the serial port and the engine answer: no data, a rejected
value, a successful or a failed forward pass) raises no fault, ends in a Ready
session, and leaves the model handle, the interpreter pointer and both slot
references as they were. -/
theorem loop_keeps_ready {I S : Type} (E : Engine I) (P : SerialPort S) (w : World I S)
    (hR : w.Ready) :
    (loop E P w).fault = none ∧ (loop E P w).world.Ready ∧
      (loop E P w).world.session = w.session := by
  obtain ⟨hip, hin, hout⟩ := hR
  obtain ⟨ip, hip⟩ := Option.isSome_iff_exists.mp hip
  obtain ⟨pin, hin⟩ := Option.isSome_iff_exists.mp hin
  obtain ⟨pout, hout⟩ := Option.isSome_iff_exists.mp hout
  by_cases hav : 0 < P.available w.serial
  · cases hr : outOfRange (P.parseFloat w.serial).1
    · by_cases hst : (E.invoke (E.store w.mem pin (P.parseFloat w.serial).1)).1
          = TfLiteStatus.kTfLiteOk
      · rw [loop_invoke_ok E P w pin pout ip hav hr hin hip hout hst]
        simp [World.Ready, World.session, hip, hin, hout]
      · rw [loop_invoke_error E P w pin ip hav hr hin hip hst]
        simp [World.Ready, World.session, hip, hin, hout]
    · rw [loop_reject E P w hav hr]
      simp [World.Ready, World.session, hip, hin, hout]
  · rw [loop_no_data E P w hav]
    simp [World.Ready, World.session, hip, hin, hout]

/-- C5 at the test rig, on an iteration whose forward pass fails. -/
theorem loop_keeps_ready_witness :
    (loop (toyEngine true false) toyPort (toyAfterSetup true false [some one_f])).fault
      = none ∧
    (loop (toyEngine true false) toyPort (toyAfterSetup true false [some one_f])).world.Ready ∧
    (loop (toyEngine true false) toyPort (toyAfterSetup true false [some one_f])).world.session
      = (toyAfterSetup true false [some one_f]).session :=
  loop_keeps_ready (toyEngine true false) toyPort (toyAfterSetup true false [some one_f])
    (toyAfterSetup_ready false [some one_f])

/-- C3: in a Ready session (`input == pin`, `output == pout`), when data is
available, `parseFloat` returns an `x` with `0 ≤ x ≤ 2π` (bounds included) and
the forward pass on the memory holding `x` returns `kTfLiteOk`, one call of
`loop` raises no fault and makes exactly these calls, in order: it parses `x`,
writes `x` through `input`, prints the progress line, invokes the forward pass
once, prints `Input: ` and `x`, prints `Output: ` and `y`, prints an empty
line, where `y` is what `output->data.f[0]` holds in the memory left by that
forward pass.  The last three output lines are `Input: x`, `Output: y` and a
blank line. -/
theorem loop_in_range_success {I S : Type} (E : Engine I) (P : SerialPort S)
    (w : World I S) (pin pout : TensorPtr) (x : F32)
    (hR : w.Ready) (hin : w.input = some pin) (hout : w.output = some pout)
    (hav : 0 < P.available w.serial) (hx : (P.parseFloat w.serial).1 = x)
    (h0 : 0 ≤ x.toReal) (h1 : x.toReal ≤ 2 * Real.pi)
    (hok : (E.invoke (E.store w.mem pin x)).1 = TfLiteStatus.kTfLiteOk) :
    (loop E P w).fault = none ∧
    (loop E P w).events =
      [Event.parseFloat x, Event.store pin x,
        Event.println "Running inference on inputted data...",
        Event.invoke TfLiteStatus.kTfLiteOk,
        Event.print "Input: ", Event.printlnFloat x,
        Event.print "Output: ",
        Event.load pout (E.load (E.invoke (E.store w.mem pin x)).2 pout),
        Event.printlnFloat (E.load (E.invoke (E.store w.mem pin x)).2 pout),
        Event.println ""] ∧
    (loop E P w).world.mem = (E.invoke (E.store w.mem pin x)).2 ∧
    writesInput (loop E P w).events = true ∧
    invokeCount (loop E P w).events = 1 ∧
    (printedLines (loop E P w).events).drop ((printedLines (loop E P w).events).length - 3) =
      [[Piece.text "Input: ", Piece.num x],
        [Piece.text "Output: ",
          Piece.num (E.load (E.invoke (E.store w.mem pin x)).2 pout)],
        [Piece.text ""]] := by
  obtain ⟨hip, _, _⟩ := hR
  obtain ⟨ip, hip⟩ := Option.isSome_iff_exists.mp hip
  have hr : outOfRange (P.parseFloat w.serial).1 = false := by
    rw [hx]
    exact inRange_accepted x h0 h1
  have hst : (E.invoke (E.store w.mem pin (P.parseFloat w.serial).1)).1
      = TfLiteStatus.kTfLiteOk := by
    rw [hx]
    exact hok
  rw [loop_invoke_ok E P w pin pout ip hav hr hin hip hout hst, hx]
  simp [writesInput, invokeCount, printedLines, linesFrom]

/-- C3 at the test rig with the input `1.0`. -/
theorem loop_in_range_success_witness :
    (loop (toyEngine true true) toyPort (toyAfterSetup true true [some one_f])).events =
      [Event.parseFloat one_f, Event.store 10 one_f,
        Event.println "Running inference on inputted data...",
        Event.invoke TfLiteStatus.kTfLiteOk,
        Event.print "Input: ", Event.printlnFloat one_f,
        Event.print "Output: ", Event.load 20 one_f, Event.printlnFloat one_f,
        Event.println ""] :=
  (loop_in_range_success (toyEngine true true) toyPort
    (toyAfterSetup true true [some one_f]) 10 20 one_f
    (toyAfterSetup_ready true [some one_f]) rfl rfl (by decide) rfl
    one_f_in_range.1 one_f_in_range.2 rfl).2.1

/-- C4: in a Ready session, when data is available, `parseFloat` returns an
`x` with `0 ≤ x ≤ 2π` and the forward pass does not return `kTfLiteOk`, one
call of `loop` raises no fault, prints exactly the progress line and the
invocation-failure diagnostic, prints no `Input: ` or `Output: ` line, prints
no `float` at all and does not read the output slot. -/
theorem loop_invoke_failure_prints_no_result {I S : Type} (E : Engine I) (P : SerialPort S)
    (w : World I S) (pin : TensorPtr) (x : F32)
    (hR : w.Ready) (hin : w.input = some pin)
    (hav : 0 < P.available w.serial) (hx : (P.parseFloat w.serial).1 = x)
    (h0 : 0 ≤ x.toReal) (h1 : x.toReal ≤ 2 * Real.pi)
    (hst : (E.invoke (E.store w.mem pin x)).1 ≠ TfLiteStatus.kTfLiteOk) :
    (loop E P w).fault = none ∧
    printedLines (loop E P w).events =
      [[Piece.text "Running inference on inputted data..."],
        [Piece.text "There was an error invoking the interpreter!"]] ∧
    (∀ l ∈ printedLines (loop E P w).events, isResultLine l = false) ∧
    (∀ y, Event.printlnFloat y ∉ (loop E P w).events) ∧
    (∀ p y, Event.load p y ∉ (loop E P w).events) := by
  obtain ⟨hip, _, _⟩ := hR
  obtain ⟨ip, hip⟩ := Option.isSome_iff_exists.mp hip
  have hr : outOfRange (P.parseFloat w.serial).1 = false := by
    rw [hx]
    exact inRange_accepted x h0 h1
  have hst2 : (E.invoke (E.store w.mem pin (P.parseFloat w.serial).1)).1
      ≠ TfLiteStatus.kTfLiteOk := by
    rw [hx]
    exact hst
  rw [loop_invoke_error E P w pin ip hav hr hin hip hst2, hx]
  simp [printedLines, linesFrom, isResultLine]

/-- C4 at the test rig with the input `1.0` and a failing forward pass. -/
theorem loop_invoke_failure_prints_no_result_witness :
    printedLines
        (loop (toyEngine true false) toyPort (toyAfterSetup true false [some one_f])).events =
      [[Piece.text "Running inference on inputted data..."],
        [Piece.text "There was an error invoking the interpreter!"]] :=
  (loop_invoke_failure_prints_no_result (toyEngine true false) toyPort
    (toyAfterSetup true false [some one_f]) 10 one_f
    (toyAfterSetup_ready false [some one_f]) rfl (by decide) rfl
    one_f_in_range.1 one_f_in_range.2 (by decide)).2.1

/-! ## The range test of the driver loop -/

theorem neg_one_f_toReal_neg : neg_one_f.toReal < 0 := by
  rw [toReal_neg_iff]
  have h1 : neg_one_f.scaled = -(neg_one_f.mag : Int) := rfl
  have h2 : neg_one_f.mag = 2 ^ 149 := by decide
  rw [h1, h2]
  norm_num

theorem seven_f_toReal : seven_f.toReal = 7 := by
  have h1 : seven_f.scaled = (seven_f.mag : Int) := rfl
  have h2 : seven_f.mag = 7 * 2 ^ 149 := by decide
  unfold F32.toReal
  rw [h1, h2]
  norm_num

theorem two_pi_lt_seven_f : 2 * Real.pi < seven_f.toReal := by
  rw [seven_f_toReal]
  linarith [Real.pi_lt_d2]

theorem loop_null_interpreter {I S : Type} (E : Engine I) (P : SerialPort S)
    (w : World I S) (pin : TensorPtr)
    (hav : 0 < P.available w.serial) (hr : outOfRange (P.parseFloat w.serial).1 = false)
    (hin : w.input = some pin) (hip : w.interpreter = none) :
    loop E P w =
      { events := [Event.parseFloat (P.parseFloat w.serial).1,
          Event.store pin (P.parseFloat w.serial).1,
          Event.println "Running inference on inputted data..."],
        world := { w with
          serial := (P.parseFloat w.serial).2,
          mem := E.store w.mem pin (P.parseFloat w.serial).1 },
        fault := some Fault.nullInterpreter } := by
  unfold outOfRange at hr
  unfold loop
  simp [hav, hr, hin, hip]

theorem loop_null_output {I S : Type} (E : Engine I) (P : SerialPort S)
    (w : World I S) (pin : TensorPtr) (ip : InterpPtr)
    (hav : 0 < P.available w.serial) (hr : outOfRange (P.parseFloat w.serial).1 = false)
    (hin : w.input = some pin) (hip : w.interpreter = some ip) (hout : w.output = none)
    (hst : (E.invoke (E.store w.mem pin (P.parseFloat w.serial).1)).1
      = TfLiteStatus.kTfLiteOk) :
    loop E P w =
      { events := [Event.parseFloat (P.parseFloat w.serial).1,
          Event.store pin (P.parseFloat w.serial).1,
          Event.println "Running inference on inputted data...",
          Event.invoke TfLiteStatus.kTfLiteOk,
          Event.print "Input: ",
          Event.printlnFloat (P.parseFloat w.serial).1,
          Event.print "Output: "],
        world := { w with
          serial := (P.parseFloat w.serial).2,
          mem := (E.invoke (E.store w.mem pin (P.parseFloat w.serial).1)).2 },
        fault := some Fault.nullOutput } := by
  unfold outOfRange at hr
  unfold loop
  simp [hav, hr, hin, hip, hout, hst]

/-- A `store` call of `loop` carries the parsed value, which passed the range
test, and goes through the `input` pointer. -/
theorem loop_store_mem {I S : Type} (E : Engine I) (P : SerialPort S) (w : World I S)
    (p : TensorPtr) (x : F32) (h : Event.store p x ∈ (loop E P w).events) :
    0 < P.available w.serial ∧ x = (P.parseFloat w.serial).1 ∧ outOfRange x = false ∧
      w.input = some p := by
  by_cases hav : 0 < P.available w.serial
  · cases hr : outOfRange (P.parseFloat w.serial).1
    · cases hin : w.input with
      | none =>
        rw [loop_null_input E P w hav hr hin] at h
        simp at h
      | some pin =>
        have key : p = pin ∧ x = (P.parseFloat w.serial).1 := by
          cases hip : w.interpreter with
          | none =>
            rw [loop_null_interpreter E P w pin hav hr hin hip] at h
            simpa using h
          | some ip =>
            by_cases hst : (E.invoke (E.store w.mem pin (P.parseFloat w.serial).1)).1
                = TfLiteStatus.kTfLiteOk
            · cases hout : w.output with
              | none =>
                rw [loop_null_output E P w pin ip hav hr hin hip hout hst] at h
                simpa using h
              | some pout =>
                rw [loop_invoke_ok E P w pin pout ip hav hr hin hip hout hst] at h
                simpa using h
            · rw [loop_invoke_error E P w pin ip hav hr hin hip hst] at h
              simpa using h
        obtain ⟨rfl, rfl⟩ := key
        exact ⟨hav, rfl, hr, rfl⟩
    · rw [loop_reject E P w hav hr] at h
      simp at h
  · rw [loop_no_data E P w hav] at h
    simp at h

/-- C1 as stated fails at the `float` `0x40C90FDB` (the constant
`(float)(2*M_PI)` itself): it is not a NaN and lies above the real `2π`, yet
`loop` does not reject it, writes it into the input slot, invokes the forward
pass and prints an `Input:` and an `Output:` line. -/
theorem loop_accepts_rounded_two_pi :
    TWO_PI_F.isNaN = false ∧ 2 * Real.pi < TWO_PI_F.toReal ∧
    (toyPort.parseFloat [some TWO_PI_F]).1 = TWO_PI_F ∧
    (loop (toyEngine true true) toyPort (toyAfterSetup true true [some TWO_PI_F])).events =
      [Event.parseFloat TWO_PI_F, Event.store 10 TWO_PI_F,
        Event.println "Running inference on inputted data...",
        Event.invoke TfLiteStatus.kTfLiteOk,
        Event.print "Input: ", Event.printlnFloat TWO_PI_F,
        Event.print "Output: ", Event.load 20 TWO_PI_F, Event.printlnFloat TWO_PI_F,
        Event.println ""] :=
  ⟨by decide, two_pi_lt_TWO_PI_F, rfl, by decide⟩

/-- C1, amended: when data is available and `parseFloat` returns an `x` that
is not a NaN and is below `0`, or above `2π` and different from the `float`
`(float)(2*M_PI)` (infinities included), one call of `loop` raises no fault,
makes exactly two calls (it parses `x` and prints the rejection message),
changes nothing but the serial buffer, does not write the input slot, does not
invoke the forward pass and prints no `Input:` or `Output:` line. -/
theorem loop_rejects_out_of_range {I S : Type} (E : Engine I) (P : SerialPort S)
    (w : World I S) (x : F32)
    (hav : 0 < P.available w.serial) (hx : (P.parseFloat w.serial).1 = x)
    (hn : x.isNaN = false)
    (h : x.toReal < 0 ∨ (2 * Real.pi < x.toReal ∧ x ≠ TWO_PI_F)) :
    (loop E P w).fault = none ∧
    (loop E P w).events =
      [Event.parseFloat x,
        Event.println "Your number must be greater than 0 and less than 2*PI"] ∧
    (loop E P w).world = { w with serial := (P.parseFloat w.serial).2 } ∧
    writesInput (loop E P w).events = false ∧
    invokeCount (loop E P w).events = 0 ∧
    (∀ l ∈ printedLines (loop E P w).events, isResultLine l = false) := by
  have hr : outOfRange (P.parseFloat w.serial).1 = true := by
    rw [hx]
    apply outside_rejected x hn
    rcases h with h | ⟨h, hne⟩
    · exact Or.inl h
    · exact Or.inr ((toReal_lt_toReal_iff TWO_PI_F x).mpr (above_two_pi_gap x h hne))
  rw [loop_reject E P w hav hr, hx]
  simp [writesInput, invokeCount, printedLines, linesFrom, isResultLine]

/-- C1, amended, at the test rig with the inputs `-1.0` and `7.0`. -/
theorem loop_rejects_out_of_range_witness :
    (loop (toyEngine true true) toyPort (toyAfterSetup true true [some neg_one_f])).events =
      [Event.parseFloat neg_one_f,
        Event.println "Your number must be greater than 0 and less than 2*PI"] ∧
    (loop (toyEngine true true) toyPort (toyAfterSetup true true [some seven_f])).events =
      [Event.parseFloat seven_f,
        Event.println "Your number must be greater than 0 and less than 2*PI"] :=
  ⟨(loop_rejects_out_of_range (toyEngine true true) toyPort
      (toyAfterSetup true true [some neg_one_f]) neg_one_f (by decide) rfl (by decide)
      (Or.inl neg_one_f_toReal_neg)).2.1,
   (loop_rejects_out_of_range (toyEngine true true) toyPort
      (toyAfterSetup true true [some seven_f]) seven_f (by decide) rfl (by decide)
      (Or.inr ⟨two_pi_lt_seven_f, by decide⟩)).2.1⟩

/-- C9 as stated fails twice.  A NaN passes both comparisons of the range
test, so `loop` writes it into the input slot and invokes the forward pass;
and the `float` `(float)(2*M_PI)`, which lies above the real `2π`, is written
and invoked as well. -/
theorem loop_invokes_on_nan_and_rounded_two_pi :
    (nan_f.isNaN = true ∧ nan_f.isFinite = false ∧
      Event.store 10 nan_f ∈
        (loop (toyEngine true true) toyPort (toyAfterSetup true true [some nan_f])).events ∧
      invokeCount
        (loop (toyEngine true true) toyPort (toyAfterSetup true true [some nan_f])).events
        = 1) ∧
    (2 * Real.pi < TWO_PI_F.toReal ∧
      Event.store 10 TWO_PI_F ∈
        (loop (toyEngine true true) toyPort
          (toyAfterSetup true true [some TWO_PI_F])).events ∧
      invokeCount
        (loop (toyEngine true true) toyPort
          (toyAfterSetup true true [some TWO_PI_F])).events = 1) :=
  ⟨⟨by decide, by decide, by decide, by decide⟩,
    ⟨two_pi_lt_TWO_PI_F, by decide, by decide⟩⟩

/-- C9, amended: whenever one call of `loop` writes a value `x` that is not a
NaN into the input slot (so also whenever it then invokes the forward pass),
`x` is the value `parseFloat` returned, `x` is finite, and
`0 ≤ x ≤ (float)(2*M_PI)`, the `float` `13176795 * 2^-21`. -/
theorem loop_written_value_bounds {I S : Type} (E : Engine I) (P : SerialPort S)
    (w : World I S) (p : TensorPtr) (x : F32)
    (hs : Event.store p x ∈ (loop E P w).events) (hn : x.isNaN = false) :
    x = (P.parseFloat w.serial).1 ∧ x.isFinite = true ∧ 0 ≤ x.toReal ∧
      x.toReal ≤ 13176795 / 2 ^ 21 := by
  obtain ⟨_, hx, hr, _⟩ := loop_store_mem E P w p x hs
  have hb := accepted_bounds x hr hn
  rw [TWO_PI_F_toReal] at hb
  exact ⟨hx, hb⟩

/-- C9, amended, at the test rig with the input `1.0`. -/
theorem loop_written_value_bounds_witness :
    one_f = (toyPort.parseFloat [some one_f]).1 ∧ one_f.isFinite = true ∧
      0 ≤ one_f.toReal ∧ one_f.toReal ≤ 13176795 / 2 ^ 21 :=
  loop_written_value_bounds (toyEngine true true) toyPort
    (toyAfterSetup true true [some one_f]) 10 one_f (by decide) (by decide)

/-- C6 as stated fails on a token without a number.  The Arduino
`parseFloat` returns `0.0` for it; `loop` prints no rejection, writes `0.0`
into the input slot, invokes the forward pass and prints a result. -/
theorem loop_runs_inference_on_token_without_number :
    (toyPort.parseFloat [none]).1 = zero_f ∧
    (loop (toyEngine true true) toyPort (toyAfterSetup true true [none])).events =
      [Event.parseFloat zero_f, Event.store 10 zero_f,
        Event.println "Running inference on inputted data...",
        Event.invoke TfLiteStatus.kTfLiteOk,
        Event.print "Input: ", Event.printlnFloat zero_f,
        Event.print "Output: ", Event.load 20 zero_f, Event.printlnFloat zero_f,
        Event.println ""] :=
  ⟨rfl, by decide⟩

/-- C6, amended: `loop` has no parse-failure check.  When data is available
it applies the range test to whatever `float` `parseFloat` returns for the
token.  If that `float` fails the test, `loop` prints the rejection message,
does not write the input slot and does not invoke the forward pass.  If it
passes the test and the session is Ready, `loop` prints no rejection, writes
that `float` into the input slot and invokes the forward pass once. -/
theorem loop_decides_on_parsed_value {I S : Type} (E : Engine I) (P : SerialPort S)
    (w : World I S) (hav : 0 < P.available w.serial) :
    (outOfRange (P.parseFloat w.serial).1 = true →
      (loop E P w).events =
        [Event.parseFloat (P.parseFloat w.serial).1,
          Event.println "Your number must be greater than 0 and less than 2*PI"] ∧
      writesInput (loop E P w).events = false ∧
      invokeCount (loop E P w).events = 0) ∧
    (outOfRange (P.parseFloat w.serial).1 = false → w.Ready →
      (∃ pin, w.input = some pin ∧
        Event.store pin (P.parseFloat w.serial).1 ∈ (loop E P w).events) ∧
      invokeCount (loop E P w).events = 1 ∧
      [Piece.text "Your number must be greater than 0 and less than 2*PI"]
        ∉ printedLines (loop E P w).events) := by
  constructor
  · intro hr
    rw [loop_reject E P w hav hr]
    simp [writesInput, invokeCount]
  · intro hr hR
    obtain ⟨hip, hin, hout⟩ := hR
    obtain ⟨ip, hip⟩ := Option.isSome_iff_exists.mp hip
    obtain ⟨pin, hin⟩ := Option.isSome_iff_exists.mp hin
    obtain ⟨pout, hout⟩ := Option.isSome_iff_exists.mp hout
    by_cases hst : (E.invoke (E.store w.mem pin (P.parseFloat w.serial).1)).1
        = TfLiteStatus.kTfLiteOk
    · rw [loop_invoke_ok E P w pin pout ip hav hr hin hip hout hst]
      refine ⟨⟨pin, hin, ?_⟩, ?_, ?_⟩ <;> simp [invokeCount, printedLines, linesFrom]
    · rw [loop_invoke_error E P w pin ip hav hr hin hip hst]
      refine ⟨⟨pin, hin, ?_⟩, ?_, ?_⟩ <;> simp [invokeCount, printedLines, linesFrom]

/-- C6, amended, at the test rig with a token that spells no number. -/
theorem loop_decides_on_parsed_value_witness :
    invokeCount (loop (toyEngine true true) toyPort (toyAfterSetup true true [none])).events
      = 1 :=
  ((loop_decides_on_parsed_value (toyEngine true true) toyPort
    (toyAfterSetup true true [none]) (by decide)).2 (by decide)
    (toyAfterSetup_ready true [none])).2.1

/-! ## `setup` -/

theorem setup_alloc_error {I S : Type} (E : Engine I) (blob : Blob) (w : World I S)
    (hst : (E.allocateTensors (staticInit E blob w)).1 ≠ TfLiteStatus.kTfLiteOk) :
    setup E blob w =
      { events := [Event.begin 115200, Event.println "Loading Tensorflow model....",
            Event.getModel, Event.println "Sine model loaded!"]
          ++ (if w.static_built then [] else [Event.construct])
          ++ [Event.println "Allocating tensors to memory pool",
            Event.allocateTensors (E.allocateTensors (staticInit E blob w)).1,
            Event.println "There was an error allocating the memory...ooof"],
        world := { w with
          sine_model := E.getModel blob,
          interpreter := some InterpPtr.static_interpreter,
          static_built := true,
          mem := (E.allocateTensors (staticInit E blob w)).2 },
        fault := none } := by
  unfold setup
  simp [hst]

theorem setup_alloc_ok {I S : Type} (E : Engine I) (blob : Blob) (w : World I S)
    (hst : (E.allocateTensors (staticInit E blob w)).1 = TfLiteStatus.kTfLiteOk) :
    setup E blob w =
      { events := [Event.begin 115200, Event.println "Loading Tensorflow model....",
            Event.getModel, Event.println "Sine model loaded!"]
          ++ (if w.static_built then [] else [Event.construct])
          ++ [Event.println "Allocating tensors to memory pool",
            Event.allocateTensors TfLiteStatus.kTfLiteOk,
            Event.println "Starting inferences... Input a number! "],
        world := { w with
          sine_model := E.getModel blob,
          interpreter := some InterpPtr.static_interpreter,
          static_built := true,
          mem := (E.allocateTensors (staticInit E blob w)).2,
          input := E.input (E.allocateTensors (staticInit E blob w)).2 0,
          output := E.output (E.allocateTensors (staticInit E blob w)).2 0 },
        fault := none } := by
  unfold setup
  simp [hst]

/-- A successful `setup` on an engine whose `input(0)` and `output(0)` are
non-null ends in a Ready session. -/
theorem setup_ok_ready {I S : Type} (E : Engine I) (blob : Blob) (w : World I S)
    (hst : (E.allocateTensors (staticInit E blob w)).1 = TfLiteStatus.kTfLiteOk)
    (hin : (E.input (E.allocateTensors (staticInit E blob w)).2 0).isSome = true)
    (hout : (E.output (E.allocateTensors (staticInit E blob w)).2 0).isSome = true) :
    (setup E blob w).world.Ready := by
  rw [setup_alloc_ok E blob w hst]
  exact ⟨rfl, hin, hout⟩

/-- C7: `setup` prints the allocation-failure message if and only if
`AllocateTensors` does not return `kTfLiteOk`.  When it returns `kTfLiteOk`,
`input` is bound to `interpreter->input(0)`, `output` to
`interpreter->output(0)`, and the ready-for-input line is printed.  When it
does not, `input` and `output` keep the value they had (null when `setup` runs
from program start) and the ready-for-input line is not printed. -/
theorem setup_reports_allocation {I S : Type} (E : Engine I) (blob : Blob) (w : World I S) :
    (setup E blob w).fault = none ∧
    ([Piece.text "There was an error allocating the memory...ooof"]
        ∈ printedLines (setup E blob w).events ↔
      (E.allocateTensors (staticInit E blob w)).1 ≠ TfLiteStatus.kTfLiteOk) ∧
    ((E.allocateTensors (staticInit E blob w)).1 = TfLiteStatus.kTfLiteOk →
      (setup E blob w).world.input = E.input (E.allocateTensors (staticInit E blob w)).2 0 ∧
      (setup E blob w).world.output = E.output (E.allocateTensors (staticInit E blob w)).2 0 ∧
      [Piece.text "Starting inferences... Input a number! "]
        ∈ printedLines (setup E blob w).events) ∧
    ((E.allocateTensors (staticInit E blob w)).1 ≠ TfLiteStatus.kTfLiteOk →
      (setup E blob w).world.input = w.input ∧
      (setup E blob w).world.output = w.output ∧
      (w.input = none → (setup E blob w).world.input = none) ∧
      (w.output = none → (setup E blob w).world.output = none) ∧
      [Piece.text "Starting inferences... Input a number! "]
        ∉ printedLines (setup E blob w).events) := by
  by_cases hst : (E.allocateTensors (staticInit E blob w)).1 = TfLiteStatus.kTfLiteOk
  · rw [setup_alloc_ok E blob w hst]
    cases w.static_built <;> simp [hst, printedLines, linesFrom]
  · rw [setup_alloc_error E blob w hst]
    cases w.static_built <;> simp [hst, printedLines, linesFrom]

/-- C7 at the test rig, with a failing and with a succeeding allocation. -/
theorem setup_reports_allocation_witness :
    (setup (toyEngine false true) [] (toyBoot [])).world.input = none ∧
    (setup (toyEngine false true) [] (toyBoot [])).world.output = none ∧
    (setup (toyEngine true true) [] (toyBoot [])).world.input = some 10 ∧
    (setup (toyEngine true true) [] (toyBoot [])).world.output = some 20 :=
  ⟨((setup_reports_allocation (toyEngine false true) [] (toyBoot [])).2.2.2
      (by decide)).2.2.1 rfl,
    ((setup_reports_allocation (toyEngine false true) [] (toyBoot [])).2.2.2
      (by decide)).2.2.2.1 rfl,
    ((setup_reports_allocation (toyEngine true true) [] (toyBoot [])).2.2.1 rfl).1,
    ((setup_reports_allocation (toyEngine true true) [] (toyBoot [])).2.2.1 rfl).2.1⟩

/-- C2 fails on the code: after `setup` ran into an allocation failure from
program start, `input` is null and `loop` has no readiness test.  With data
available and the value `1.0` parsed, `loop` does not refuse: it goes on to
the assignment `input->data.f[0] = 1.0` through the null pointer. -/
theorem loop_after_failed_setup_dereferences_null :
    [Piece.text "There was an error allocating the memory...ooof"]
      ∈ printedLines (setup (toyEngine false true) [] (toyBoot [some one_f])).events ∧
    (toyAfterSetup false true [some one_f]).input = none ∧
    outOfRange one_f = false ∧
    (loop (toyEngine false true) toyPort (toyAfterSetup false true [some one_f])).fault
      = some (Fault.nullInput one_f) ∧
    [Piece.text "Your number must be greater than 0 and less than 2*PI"]
      ∉ printedLines
        (loop (toyEngine false true) toyPort (toyAfterSetup false true [some one_f])).events :=
  ⟨by decide, rfl, by decide, by decide, by decide⟩

/-- The defect behind C2, for every engine and serial port: from program
start, if `AllocateTensors` fails in `setup`, then whenever data is available
and the parsed value passes the range test, `loop` reaches the assignment
through the null `input` pointer. -/
theorem loop_after_failed_setup {I S : Type} (E : Engine I) (P : SerialPort S)
    (blob : Blob) (mem : I) (serial : S)
    (hst : (E.allocateTensors (staticInit E blob (World.boot mem serial))).1
      ≠ TfLiteStatus.kTfLiteOk)
    (hav : 0 < P.available serial) (hr : outOfRange (P.parseFloat serial).1 = false) :
    (loop E P (setup E blob (World.boot mem serial)).world).fault
      = some (Fault.nullInput (P.parseFloat serial).1) := by
  rw [setup_alloc_error E blob _ hst]
  rw [loop_null_input E P _ hav hr rfl]
  rfl

end Sketch
